import Mathlib

/-!
Verification development for the KoVAE training script `run_regular.py`.
The script is shallowly embedded: the argparse configuration, the log-path
construction, the data-loader batching, the epoch loop, the generation loop,
the evaluation loop and the module-level call syntax are each translated into
executable Lean definitions, and the specification's claims are settled as
theorems about those definitions.
-/

namespace KoVAE

/-! ## Python values and the argparse model (`define_args`, lines 19-50)

`argparse` stores, for every flag, a converter (`type=`) and a default.
When the flag is absent from the command line the namespace holds the
default unchanged; when it is present, the raw string is passed through the
converter.  `type=bool` is Python's built-in `bool`, whose value on a
string is falsy exactly for the empty string. -/

/-- A parsed Python value: the script uses `int`, `float`, `str` and `bool`
flags.  Python floats appear here as rationals since every default in the
file is an exact decimal literal. -/
inductive PyVal where
  | int (n : Int)
  | float (q : ℚ)
  | str (s : String)
  | bool (b : Bool)
  deriving DecidableEq, Repr

/-- The `type=` converter attached to an `add_argument` call: `none` means
no converter was given, so argparse keeps the raw string. -/
inductive PyType where
  | tInt
  | tFloat
  | tStr
  | tBool
  deriving DecidableEq, Repr

/-- Python's `bool(s)` on a string: `False` exactly for the empty string,
`True` for every other string (including `"False"` and `"0"`). -/
def pyBool (s : String) : Bool := s ≠ ""

/-- Python's `int(s)` on a string, modelled for optionally signed decimal
digit strings; any other shape makes argparse reject the value. -/
def pyInt (s : String) : Option Int := s.toInt?

/-- Digits-only test used by the float reader. -/
def allDigits (s : String) : Bool := s.length > 0 && s.toList.all Char.isDigit

/-- Unsigned decimal value of a digit string. -/
def digitsVal (s : String) : ℕ :=
  s.toList.foldl (fun a c => 10 * a + (c.toNat - '0'.toNat)) 0

/-- Python's `float(s)` on a string, modelled for plain decimal forms
`[sign] digits [. digits] [e [sign] digits]` (the only forms a user would
pass for the script's float flags); any other shape rejects the value. -/
def pyFloat (s : String) : Option ℚ :=
  let (sgn, body) :=
    if s.startsWith "-" then ((-1 : ℚ), s.drop 1)
    else if s.startsWith "+" then ((1 : ℚ), s.drop 1)
    else ((1 : ℚ), s)
  let (mant, ex) :=
    match body.splitOn "e" with
    | [m] => (m, some (0 : Int))
    | [m, e] =>
        let (esgn, ebody) :=
          if e.startsWith "-" then ((-1 : Int), e.drop 1)
          else if e.startsWith "+" then ((1 : Int), e.drop 1)
          else ((1 : Int), e)
        if allDigits ebody then (m, some (esgn * digitsVal ebody)) else (m, none)
    | _ => ("", none)
  match ex with
  | none => none
  | some e =>
      match mant.splitOn "." with
      | [w] =>
          if allDigits w then some (sgn * digitsVal w * (10 : ℚ) ^ e) else none
      | [w, f] =>
          if allDigits w && allDigits f then
            some (sgn * (digitsVal w + digitsVal f / (10 : ℚ) ^ f.length)
              * (10 : ℚ) ^ e)
          else none
      | _ => none

/-- Apply a flag's converter to the raw command-line string. -/
def convert (t : Option PyType) (s : String) : Option PyVal :=
  match t with
  | none => some (.str s)
  | some .tStr => some (.str s)
  | some .tBool => some (.bool (pyBool s))
  | some .tInt => (pyInt s).map .int
  | some .tFloat => (pyFloat s).map .float

/-- One `add_argument` call: flag name, converter, default value. -/
structure FlagSpec where
  flag : String
  type : Option PyType
  default : PyVal
  deriving DecidableEq, Repr

/-- `add_argument('--epochs', type=int, default=600)` (line 23). -/
def epochsSpec : FlagSpec := ⟨"--epochs", some .tInt, .int 600⟩

/-- `add_argument('--lr', type=float, default=7e-4)` (line 24). -/
def lrSpec : FlagSpec := ⟨"--lr", some .tFloat, .float (7 / 10000)⟩

/-- `add_argument('--weight_decay', type=float, default=0.)` (line 25). -/
def weightDecaySpec : FlagSpec := ⟨"--weight_decay", some .tFloat, .float 0⟩

/-- `add_argument('--seed', type=int, default=10)` (line 26). -/
def seedSpec : FlagSpec := ⟨"--seed", some .tInt, .int 10⟩

/-- `add_argument('--pinv_solver', type=bool, default=False)` (line 27). -/
def pinvSolverSpec : FlagSpec := ⟨"--pinv_solver", some .tBool, .bool false⟩

/-- `add_argument('--neptune', default='debug')` (line 28). -/
def neptuneSpec : FlagSpec := ⟨"--neptune", none, .str "debug"⟩

/-- `add_argument('--tag', default='sine')` (line 29). -/
def tagSpec : FlagSpec := ⟨"--tag", none, .str "sine"⟩

/-- `add_argument("--dataset", default='sine')` (line 32). -/
def datasetSpec : FlagSpec := ⟨"--dataset", none, .str "sine"⟩

/-- `add_argument('--batch_size', type=int, default=64)` (line 33). -/
def batchSizeSpec : FlagSpec := ⟨"--batch_size", some .tInt, .int 64⟩

/-- `add_argument('--seq_len', type=int, default=24)` (line 34). -/
def seqLenSpec : FlagSpec := ⟨"--seq_len", some .tInt, .int 24⟩

/-- `add_argument('--missing_value', type=float, default=0.)` (line 35). -/
def missingValueSpec : FlagSpec := ⟨"--missing_value", some .tFloat, .float 0⟩

/-- `add_argument('--batch_norm', type=bool, default=True)` (line 38). -/
def batchNormSpec : FlagSpec := ⟨"--batch_norm", some .tBool, .bool true⟩

/-- `add_argument('--num_layers', type=int, default=3)` (line 39). -/
def numLayersSpec : FlagSpec := ⟨"--num_layers", some .tInt, .int 3⟩

/-- `add_argument('--z_dim', type=int, default=16)` (line 40). -/
def zDimSpec : FlagSpec := ⟨"--z_dim", some .tInt, .int 16⟩

/-- `add_argument('--hidden_dim', type=int, default=20)` (lines 41-42). -/
def hiddenDimSpec : FlagSpec := ⟨"--hidden_dim", some .tInt, .int 20⟩

/-- `add_argument('--num_steps', type=int, default=1)` (line 45). -/
def numStepsSpec : FlagSpec := ⟨"--num_steps", some .tInt, .int 1⟩

/-- `add_argument('--w_rec', type=float, default=1.)` (line 46). -/
def wRecSpec : FlagSpec := ⟨"--w_rec", some .tFloat, .float 1⟩

/-- `add_argument('--w_kl', type=float, default=.007)` (line 47). -/
def wKlSpec : FlagSpec := ⟨"--w_kl", some .tFloat, .float (7 / 1000)⟩

/-- `add_argument('--w_pred_prior', type=float, default=0.005)` (line 48). -/
def wPredPriorSpec : FlagSpec := ⟨"--w_pred_prior", some .tFloat, .float (5 / 1000)⟩

/-- The parser built by `define_args` (lines 19-50), one entry per
`add_argument` call, in source order. -/
def parserSpecs : List FlagSpec :=
  [ epochsSpec, lrSpec, weightDecaySpec, seedSpec, pinvSolverSpec,
    neptuneSpec, tagSpec, datasetSpec, batchSizeSpec, seqLenSpec,
    missingValueSpec, batchNormSpec, numLayersSpec, zDimSpec,
    hiddenDimSpec, numStepsSpec, wRecSpec, wKlSpec, wPredPriorSpec ]

/-- The value a flag receives in the parsed namespace, given the
association list of flags actually provided on the command line: the
converter's output when provided, the default when omitted. -/
def parsedValue (spec : FlagSpec) (provided : List (String × String)) :
    Option PyVal :=
  match provided.lookup spec.flag with
  | none => some spec.default
  | some s => convert spec.type s

/-- The spec a given flag string resolves to in `define_args`'s parser. -/
def specOf (flag : String) : Option FlagSpec :=
  parserSpecs.find? (fun sp => sp.flag = flag)

/-! ## The parsed namespace (`args`)

The fields of the argparse namespace produced at line 68, with Python ints
as `Int`, floats as `ℚ` and plain flags as `String`. -/

/-- The argparse namespace of `run_regular.py`: one field per
`add_argument` call of `define_args`. -/
structure Args where
  epochs : Int
  lr : ℚ
  weight_decay : ℚ
  seed : Int
  pinv_solver : Bool
  neptune : String
  tag : String
  dataset : String
  batch_size : Int
  seq_len : Int
  missing_value : ℚ
  batch_norm : Bool
  num_layers : Int
  z_dim : Int
  hidden_dim : Int
  num_steps : Int
  w_rec : ℚ
  w_kl : ℚ
  w_pred_prior : ℚ
  deriving DecidableEq, Repr

/-- The namespace obtained when every flag is omitted: each field holds
its `define_args` default. -/
def defaultArgs : Args :=
  { epochs := 600
    lr := 7 / 10000
    weight_decay := 0
    seed := 10
    pinv_solver := false
    neptune := "debug"
    tag := "sine"
    dataset := "sine"
    batch_size := 64
    seq_len := 24
    missing_value := 0
    batch_norm := true
    num_layers := 3
    z_dim := 16
    hidden_dim := 20
    num_steps := 1
    w_rec := 1
    w_kl := 7 / 1000
    w_pred_prior := 5 / 1000 }

/-! ## Call-argument syntax (lines 185-186)

Python's grammar requires, in a call with only plain arguments, that every
positional argument precede every keyword argument; a positional argument
after a keyword argument is a `SyntaxError`, detected when the module is
compiled, before any statement of the module runs. -/

/-- One argument of a Python call expression: positional, or `k=v`. -/
inductive CallArg where
  | positional (expr : String)
  | keyword (key : String) (expr : String)
  deriving DecidableEq, Repr

/-- Whether a call argument is positional. -/
def CallArg.isPositional : CallArg → Bool
  | .positional _ => true
  | .keyword _ _ => false

/-- Python's syntactic rule for a call with only plain arguments: valid
iff no positional argument follows a keyword argument. -/
def callArgsValid (l : List CallArg) : Bool :=
  (l.dropWhile CallArg.isPositional).all (fun a => ¬ a.isPositional)

/-- The argument list of the call at line 185:
`visualization (ori_data, generated_data, analysis='tsne', args, run=None)`. -/
def visualizationCall185 : List CallArg :=
  [ .positional "ori_data",
    .positional "generated_data",
    .keyword "analysis" "'tsne'",
    .positional "args",
    .keyword "run" "None" ]

/-- The argument list of the call at line 186:
`visualization (ori_data, generated_data, analysis='pcs', args, run=None)`. -/
def visualizationCall186 : List CallArg :=
  [ .positional "ori_data",
    .positional "generated_data",
    .keyword "analysis" "'pcs'",
    .positional "args",
    .keyword "run" "None" ]

/-- Whether the module compiles: every other statement of
`run_regular.py` is syntactically valid Python, so compilation of the
module succeeds exactly when the two `visualization` calls are valid. -/
def moduleCompiles : Bool :=
  callArgsValid visualizationCall185 && callArgsValid visualizationCall186

/-- Errors of the embedded Python runs. -/
inductive PyErr where
  | syntaxError
  | nameError (name : String)
  deriving DecidableEq, Repr

/-- Observable events of a run of the script. -/
inductive Ev where
  | seedSet (seed : Int)
  | parseArgs
  | dataLoad (dataset : String)
  | modelBuild
  | trainLoopStart
  | epochStart (e : ℕ)
  | zeroGrad (e b : ℕ)
  | forward (e b : ℕ)
  | lossCall (e b : ℕ)
  | backward (e b : ℕ)
  | optStep (e b : ℕ)
  | sample (n : ℕ)
  | metricDisc (ii : ℕ)
  | metricPred (ii : ℕ)
  | printOut (s : String)
  deriving DecidableEq, Repr

/-! ## Log-directory path (lines 75-82 and 118)

`name` is built by `str.format` from the hyperparameters; the float
renderer is abstracted as a parameter `fr` (Python's `str` on a float),
and the integers render exactly as Lean's `toString` on `Int` does.
`args.log_dir` is `'./logs' / dataset / name`, and line 118 calls
`tf.io.gfile.makedirs` on `os.path.dirname(args.log_dir)`. -/

/-- The run name of lines 77-80: the two adjacent literals concatenate,
and the ten format slots receive epochs, batch size, hidden dim, z dim,
lr, layer count, kl weight, pred-prior weight, weight decay and seed. -/
def nameOf (fr : ℚ → String) (a : Args) : String :=
  "KOVAE-" ++ toString a.epochs ++ "_bs=" ++ toString a.batch_size ++
  "-rnn_size=" ++ toString a.hidden_dim ++ "-z_dim=" ++ toString a.z_dim ++
  "-lr=" ++ fr a.lr ++ "-n_layers=" ++ toString a.num_layers ++
  "=-weight:kl=" ++ fr a.w_kl ++ "-pred=" ++ fr a.w_pred_prior ++
  "-w_decay=" ++ fr a.weight_decay ++ "-seed=" ++ toString a.seed

/-- `args.log_dir` after line 82: `'%s/%s/%s' % ('./logs', dataset, name)`. -/
def log_dir (fr : ℚ → String) (a : Args) : String :=
  "./logs" ++ "/" ++ a.dataset ++ "/" ++ nameOf fr a

/-- `os.path.dirname` (posixpath): everything up to and including the last
slash, stripped of trailing slashes unless it is all slashes; the empty
string when there is no slash. -/
def dirname (p : String) : String :=
  if p.data.contains '/' then
    if (p.data.reverse.dropWhile (fun c => c ≠ '/')).reverse.all (fun c => c = '/') then
      String.mk (p.data.reverse.dropWhile (fun c => c ≠ '/')).reverse
    else
      String.mk ((p.data.reverse.dropWhile (fun c => c ≠ '/')).dropWhile (fun c => c = '/')).reverse
  else ""

/-- The path line 118 passes to `tf.io.gfile.makedirs`:
`os.path.dirname(args.log_dir)`. -/
def makedirs_path (fr : ℚ → String) (a : Args) : String :=
  dirname (log_dir fr a)

/-- Python's `str` on the script's float hyperparameters, modelled for
exactly-decimal values with magnitude `0` or at least `1/10000` (every
default of `define_args` falls in this range): sign, integer part, a dot,
and the fractional digits without trailing zeros (at least one digit). -/
def pyFloatRepr (q : ℚ) : String :=
  let sgn := if q < 0 then "-" else ""
  let n := q.num.natAbs
  let d := q.den
  let ip := n / d
  let fracDigits :=
    (List.range 20).foldl
      (fun (acc : List ℕ × ℕ) _ =>
        let r := acc.2
        (acc.1 ++ [10 * r / d], 10 * r % d))
      ([], n % d) |>.1
  let trimmed := (fracDigits.reverse.dropWhile (fun k => k = 0)).reverse
  let digits := if trimmed = [] then [0] else trimmed
  sgn ++ toString ip ++ "." ++ String.join (digits.map toString)

/-! ## Data-loader batching (line 108)

`DataLoader(dataset, batch_size=bs, shuffle=True, ...)` with the default
`drop_last=False` yields consecutive chunks of the (shuffled) dataset:
every chunk has `bs` elements except possibly a shorter final one.
Shuffling permutes the samples but not the chunk sizes. -/

/-- The sizes of the batches a `DataLoader` over `n` samples with batch
size `bs` yields, in order. -/
def batchSizes (n bs : ℕ) : List ℕ :=
  if bs = 0 ∨ n = 0 then []
  else if n ≤ bs then [n]
  else bs :: batchSizes (n - bs) bs
termination_by n
decreasing_by omega

/-- Number of samples in the `"sine"` branch of `main` (line 88):
`no, dim = 10000, 5`. -/
def sineSampleCount : ℕ := 10000

/-! ## The training loop (lines 128-146)

`for epoch in range(0, args.epochs)` runs `max(epochs, 0)` iterations;
each iteration enumerates the loader from 1 and, per batch, zeroes the
gradients, runs the model forward, computes the loss, backpropagates and
steps the optimizer. -/

/-- The events of one loop body at lines 136-141, for epoch `e` (0-based)
and batch index `b` (1-based, from `enumerate(train_loader, 1)`). -/
def batchBlock (e b : ℕ) : List Ev :=
  [.zeroGrad e b, .forward e b, .lossCall e b, .backward e b, .optStep e b]

/-- The events of one epoch: the epoch-start log at line 129, then one
batch block per batch of the loader. -/
def epochTrace (e : ℕ) (sizes : List ℕ) : List Ev :=
  .epochStart (e + 1) :: (List.range sizes.length).flatMap (fun i => batchBlock e (i + 1))

/-- The events of the whole loop at lines 128-146: `range(0, epochs)`
iterates `epochs.toNat` times (none when `epochs ≤ 0`). -/
def trainTrace (epochs : Int) (sizes : List ℕ) : List Ev :=
  (List.range epochs.toNat).flatMap (fun e => epochTrace e sizes)

/-! ## Generation and restacking (lines 153-165)

For each batch of the loader, `model.sample_data(n_sample)` is called with
that batch's size and the results are stacked with `np.vstack`; then the
original batches are restacked the same way. -/

/-- The generated array of lines 153-158: one sampled block per loader
batch, with `n_sample` equal to that batch's first-dimension size, stacked
by `np.vstack`.  The model's sampler is abstract (`sample`), a row list
per request. -/
def generatedStack (sample : ℕ → List (List ℚ)) (sizes : List ℕ) :
    List (List ℚ) :=
  (sizes.map (fun n => sample n)).flatten

/-- The restacked original data of lines 162-165: the loader's batches
themselves, stacked by `np.vstack`; only row counts are tracked. -/
def oriStackLen (sizes : List ℕ) : ℕ := sizes.sum

/-! ## The evaluation block (lines 167-186) and name resolution

Line 167 imports `discriminative_score_metrics` into `main`'s local scope.
No statement of the file binds `predictive_score_metrics` (or
`visualization`), so evaluating those names raises `NameError`.  The block
is embedded as a sequence of steps, each yielding the events it emits and
optionally the exception it raises; execution stops at the first
exception (the file installs no handler). -/

/-- The names bound and visible at line 172 (module globals from the
imports at lines 1-16 and the definitions/assignments at lines 19-69,
plus `main`'s locals including the local import at line 167). -/
def boundNamesAtEval : List String :=
  [ "Data", "torch", "np", "tf", "neptune", "random", "argparse", "os",
    "sys", "KoVAE", "optim", "logging", "real_data_loading",
    "sine_data_generation", "agg_losses", "log_losses", "set_seed_device",
    "define_args", "parser", "args", "main", "name", "ori_data",
    "train_set", "seed_worker", "g", "train_loader", "model", "optimizer",
    "params_num", "epoch", "losses_agg_tr", "i", "data", "X", "losses",
    "generated_data", "n_sample", "discriminative_score_metrics",
    "disc_res", "pred_res", "ii", "dsc", "prd", "range", "print", "list" ]

/-- One step of the embedded execution: the events it emits, and the
exception it raises, if any. -/
abbrev StepOut : Type := List Ev × Option PyErr

/-- Run a sequence of steps: events accumulate; the first exception
aborts the run and propagates (there is no `try`/`except` to stop it). -/
def seqRun : List StepOut → List Ev × Option PyErr
  | [] => ([], none)
  | (t, some e) :: _ => (t, some e)
  | (t, none) :: rest =>
      let r := seqRun rest
      (t ++ r.1, r.2)

/-- One iteration of the `for ii in range(10)` loop (lines 172-176):
evaluate `discriminative_score_metrics(...)`, then
`predictive_score_metrics(...)`; each call first resolves its name in the
scope `env` and raises `NameError` when unbound. -/
def evalIter (env : List String) (ii : ℕ) : StepOut :=
  if env.contains "discriminative_score_metrics" then
    if env.contains "predictive_score_metrics" then
      ([.metricDisc ii, .metricPred ii], none)
    else ([.metricDisc ii], some (.nameError "predictive_score_metrics"))
  else ([], some (.nameError "discriminative_score_metrics"))

/-- The four `print` statements of lines 177-183, reached only when the
loop finishes. -/
def evalPrints : List Ev :=
  [ .printOut "test/disc_mean", .printOut "test/disc_std",
    .printOut "test/pred_mean", .printOut "test/pred_std" ]

/-- The two `visualization` calls of lines 185-186 as run-time steps
(never reached: the module already fails to compile, and the evaluation
loop raises first even when the block is entered). -/
def visualizationSteps (env : List String) : List StepOut :=
  [ (if env.contains "visualization" then ([], none)
     else ([], some (.nameError "visualization"))),
    (if env.contains "visualization" then ([], none)
     else ([], some (.nameError "visualization"))) ]

/-- The evaluation block of lines 167-186: the ten-iteration scoring loop,
then the four metric prints, then the visualization calls. -/
def evalPhase (env : List String) : List Ev × Option PyErr :=
  seqRun (((List.range 10).map (evalIter env)) ++
    ([(evalPrints, none)] ++ visualizationSteps env))

/-! ## Statement structure of the file (C7)

The statement tree of `run_regular.py`, at the granularity of Python's
compound-statement grammar: enough to decide whether a `try`/`except`
occurs anywhere in the file. -/

/-- A Python statement, abstracted to its compound structure. -/
inductive Stmt where
  | importStmt (mods : List String)
  | assign (target : String)
  | exprStmt (desc : String)
  | ret (desc : String)
  | funcDef (fname : String) (body : List Stmt)
  | forStmt (body : List Stmt)
  | withStmt (body : List Stmt)
  | ifStmt (body orelse : List Stmt)
  | tryStmt (body handlers orelse final : List Stmt)
  deriving Repr

mutual

/-- Whether a statement is, or contains, a `try` statement. -/
def containsTry : Stmt → Bool
  | .tryStmt _ _ _ _ => true
  | .funcDef _ b => containsTryList b
  | .forStmt b => containsTryList b
  | .withStmt b => containsTryList b
  | .ifStmt b e => containsTryList b || containsTryList e
  | _ => false

/-- Whether any statement of a block is, or contains, a `try`. -/
def containsTryList : List Stmt → Bool
  | [] => false
  | s :: rest => containsTry s || containsTryList rest

end

/-- The body of `define_args` (lines 20-50). -/
def defineArgsBody : List Stmt :=
  [.assign "parser"] ++
  (List.range 19).map (fun i => .exprStmt ("parser.add_argument #" ++ toString (i + 1))) ++
  [.ret "parser"]

/-- The body of `set_seed_device` (lines 53-65). -/
def setSeedDeviceBody : List Stmt :=
  [ .assign "torch.backends.cudnn.deterministic",
    .assign "torch.backends.cudnn.benchmark",
    .exprStmt "torch.manual_seed(seed)",
    .exprStmt "np.random.seed(seed)",
    .exprStmt "tf.keras.utils.set_random_seed(seed)",
    .ifStmt [.assign "device", .exprStmt "print cuda"] [.assign "device"],
    .ret "device" ]

/-- The body of `main` (lines 74-186). -/
def mainBody : List Stmt :=
  [ .assign "args.device",
    .assign "args.log_dir",
    .assign "name",
    .assign "args.log_dir",
    .ifStmt
      [ .assign "args.inp_dim", .assign "no, dim", .assign "ori_data",
        .assign "ori_data", .assign "args.inp_dim", .assign "train_set" ]
      [ .assign "ori_data", .assign "ori_data", .assign "args.inp_dim",
        .assign "train_set" ],
    .funcDef "seed_worker"
      [.assign "worker_seed", .exprStmt "np.random.seed", .exprStmt "random.seed"],
    .assign "g",
    .exprStmt "g.manual_seed(args.seed)",
    .assign "train_loader",
    .exprStmt "logging.info dataset ready",
    .assign "model",
    .assign "optimizer",
    .exprStmt "tf.io.gfile.makedirs(os.path.dirname(args.log_dir))",
    .assign "params_num",
    .exprStmt "logging.info(args)",
    .exprStmt "logging.info params",
    .exprStmt "print params",
    .exprStmt "logging.info starting loop",
    .forStmt
      [ .exprStmt "logging.info epoch",
        .exprStmt "model.train()",
        .assign "losses_agg_tr",
        .forStmt
          [ .assign "X", .exprStmt "optimizer.zero_grad()",
            .assign "x_rec, Z_enc, Z_enc_prior", .assign "losses",
            .exprStmt "losses[0].backward()", .exprStmt "optimizer.step()",
            .assign "losses_agg_tr" ],
        .exprStmt "log_losses" ],
    .exprStmt "logging.info training complete",
    .assign "args.device",
    .exprStmt "model.eval()",
    .withStmt
      [ .assign "generated_data",
        .forStmt [.assign "n_sample", .exprStmt "generated_data.append"] ],
    .assign "generated_data",
    .exprStmt "logging.info generation complete",
    .assign "ori_data",
    .forStmt [.exprStmt "ori_data.append"],
    .assign "ori_data",
    .importStmt ["metrics.discriminative_torch"],
    .assign "args.device",
    .assign "disc_res",
    .assign "pred_res",
    .forStmt
      [ .assign "dsc", .exprStmt "disc_res.append",
        .assign "prd", .exprStmt "pred_res.append" ],
    .assign "disc_mean, disc_std",
    .exprStmt "print disc_mean",
    .exprStmt "print disc_std",
    .assign "pred_mean, pred_std",
    .exprStmt "print pred_mean",
    .exprStmt "print pred_std",
    .exprStmt "visualization tsne",
    .exprStmt "visualization pcs" ]

/-- The whole module `run_regular.py` as a statement list (lines 1-190). -/
def scriptStmts : List Stmt :=
  [ .importStmt ["torch.utils.data"],
    .importStmt ["torch.nn.init"],
    .importStmt ["numpy"],
    .importStmt ["tensorflow"],
    .importStmt ["neptune.new"],
    .importStmt ["random"],
    .importStmt ["argparse"],
    .importStmt ["os", "sys"],
    .exprStmt "sys.path.append",
    .importStmt ["models.kovae"],
    .importStmt ["torch.optim"],
    .importStmt ["logging"],
    .importStmt ["utils.utils_data"],
    .importStmt ["utils.utils"],
    .funcDef "define_args" defineArgsBody,
    .funcDef "set_seed_device" setSeedDeviceBody,
    .assign "parser",
    .assign "args",
    .exprStmt "logging.basicConfig",
    .funcDef "main" mainBody,
    .ifStmt [.exprStmt "main(args)"] [] ]

/-! ## The whole run of `main` (lines 72-186) and of the script

`main`'s body is embedded as the sequence of its phases, executed by
`seqRun`; the script first compiles the module (C1) and then parses the
command line (lines 67-68) before calling `main` (line 190).  `extN`
stands for the number of series the external `real_data_loading` returns
for a non-`"sine"` dataset. -/

/-- Number of series loaded at lines 86-97: `10000` for `"sine"`, the
external loader's count otherwise. -/
def datasetCount (a : Args) (extN : ℕ) : ℕ :=
  if a.dataset = "sine" then sineSampleCount else extN

/-- Batch sizes of the train loader for the loaded data. -/
def sizesOf (a : Args) (extN : ℕ) : List ℕ :=
  batchSizes (datasetCount a extN) a.batch_size.toNat

/-- The generation loop of lines 153-158 as events: one `sample` per
loader batch, with that batch's size. -/
def genTrace (sizes : List ℕ) : List Ev :=
  sizes.map (fun n => .sample n)

/-- The steps of `main`'s body in execution order: seed (74), load
(86-97), build (114), parameter-count print (124), loop start (126), the
epoch loop (128-146), seed (151), generation (153-158), seed (169), the
evaluation loop (172-176), the metric prints (177-183) and the
visualization calls (185-186). -/
def mainSteps (a : Args) (extN : ℕ) : List StepOut :=
  [ ([Ev.seedSet a.seed], none),
    ([Ev.dataLoad a.dataset], none),
    ([Ev.modelBuild], none),
    ([Ev.printOut "number of model parameters"], none),
    ([Ev.trainLoopStart], none),
    (trainTrace a.epochs (sizesOf a extN), none),
    ([Ev.seedSet a.seed], none),
    (genTrace (sizesOf a extN), none),
    ([Ev.seedSet a.seed], none) ] ++
  ((List.range 10).map (evalIter boundNamesAtEval)) ++
  [(evalPrints, none)] ++ visualizationSteps boundNamesAtEval

/-- The run of `main`'s body: its events and its uncaught exception. -/
def mainBodyRun (a : Args) (extN : ℕ) : List Ev × Option PyErr :=
  seqRun (mainSteps a extN)

/-- Pair up the command line into `(flag, value)` couples, the
space-separated form argparse accepts. -/
def pairFlags : List String → List (String × String)
  | f :: v :: rest => (f, v) :: pairFlags rest
  | _ => []

/-- Extract an `Int` field from a parsed flag value. -/
def asInt : Option PyVal → Option Int
  | some (.int n) => some n
  | _ => none

/-- Extract a `ℚ` field from a parsed flag value. -/
def asFloat : Option PyVal → Option ℚ
  | some (.float q) => some q
  | _ => none

/-- Extract a `String` field from a parsed flag value. -/
def asStr : Option PyVal → Option String
  | some (.str s) => some s
  | _ => none

/-- Extract a `Bool` field from a parsed flag value. -/
def asBool : Option PyVal → Option Bool
  | some (.bool b) => some b
  | _ => none

/-- The `epochs` field parse of line 68. -/
def nsEpochs (p : List (String × String)) : Option Int := asInt (parsedValue epochsSpec p)

/-- The `lr` field parse of line 68. -/
def nsLr (p : List (String × String)) : Option ℚ := asFloat (parsedValue lrSpec p)

/-- The `weight_decay` field parse of line 68. -/
def nsWeightDecay (p : List (String × String)) : Option ℚ := asFloat (parsedValue weightDecaySpec p)

/-- The `seed` field parse of line 68. -/
def nsSeed (p : List (String × String)) : Option Int := asInt (parsedValue seedSpec p)

/-- The `pinv_solver` field parse of line 68. -/
def nsPinvSolver (p : List (String × String)) : Option Bool := asBool (parsedValue pinvSolverSpec p)

/-- The `neptune` field parse of line 68. -/
def nsNeptune (p : List (String × String)) : Option String := asStr (parsedValue neptuneSpec p)

/-- The `tag` field parse of line 68. -/
def nsTag (p : List (String × String)) : Option String := asStr (parsedValue tagSpec p)

/-- The `dataset` field parse of line 68. -/
def nsDataset (p : List (String × String)) : Option String := asStr (parsedValue datasetSpec p)

/-- The `batch_size` field parse of line 68. -/
def nsBatchSize (p : List (String × String)) : Option Int := asInt (parsedValue batchSizeSpec p)

/-- The `seq_len` field parse of line 68. -/
def nsSeqLen (p : List (String × String)) : Option Int := asInt (parsedValue seqLenSpec p)

/-- The `missing_value` field parse of line 68. -/
def nsMissingValue (p : List (String × String)) : Option ℚ := asFloat (parsedValue missingValueSpec p)

/-- The `batch_norm` field parse of line 68. -/
def nsBatchNorm (p : List (String × String)) : Option Bool := asBool (parsedValue batchNormSpec p)

/-- The `num_layers` field parse of line 68. -/
def nsNumLayers (p : List (String × String)) : Option Int := asInt (parsedValue numLayersSpec p)

/-- The `z_dim` field parse of line 68. -/
def nsZDim (p : List (String × String)) : Option Int := asInt (parsedValue zDimSpec p)

/-- The `hidden_dim` field parse of line 68. -/
def nsHiddenDim (p : List (String × String)) : Option Int := asInt (parsedValue hiddenDimSpec p)

/-- The `num_steps` field parse of line 68. -/
def nsNumSteps (p : List (String × String)) : Option Int := asInt (parsedValue numStepsSpec p)

/-- The `w_rec` field parse of line 68. -/
def nsWRec (p : List (String × String)) : Option ℚ := asFloat (parsedValue wRecSpec p)

/-- The `w_kl` field parse of line 68. -/
def nsWKl (p : List (String × String)) : Option ℚ := asFloat (parsedValue wKlSpec p)

/-- The `w_pred_prior` field parse of line 68. -/
def nsWPredPrior (p : List (String × String)) : Option ℚ := asFloat (parsedValue wPredPriorSpec p)

/-- Whether every provided value is accepted by its flag's converter
(argparse prints usage and exits otherwise). -/
def parseOk (p : List (String × String)) : Bool :=
  (nsEpochs p).isSome && (nsLr p).isSome && (nsWeightDecay p).isSome &&
  (nsSeed p).isSome && (nsPinvSolver p).isSome && (nsNeptune p).isSome &&
  (nsTag p).isSome && (nsDataset p).isSome && (nsBatchSize p).isSome &&
  (nsSeqLen p).isSome && (nsMissingValue p).isSome && (nsBatchNorm p).isSome &&
  (nsNumLayers p).isSome && (nsZDim p).isSome && (nsHiddenDim p).isSome &&
  (nsNumSteps p).isSome && (nsWRec p).isSome && (nsWKl p).isSome &&
  (nsWPredPrior p).isSome

/-- The namespace `parser.parse_args()` builds at line 68 from the
provided flags; `none` when a value is rejected (argparse exits).  The
`getD` fallbacks are never taken: `parseOk` guards them. -/
def parseNamespace (p : List (String × String)) : Option Args :=
  if parseOk p then
    some
      { epochs := (nsEpochs p).getD 600
        lr := (nsLr p).getD (7 / 10000)
        weight_decay := (nsWeightDecay p).getD 0
        seed := (nsSeed p).getD 10
        pinv_solver := (nsPinvSolver p).getD false
        neptune := (nsNeptune p).getD "debug"
        tag := (nsTag p).getD "sine"
        dataset := (nsDataset p).getD "sine"
        batch_size := (nsBatchSize p).getD 64
        seq_len := (nsSeqLen p).getD 24
        missing_value := (nsMissingValue p).getD 0
        batch_norm := (nsBatchNorm p).getD true
        num_layers := (nsNumLayers p).getD 3
        z_dim := (nsZDim p).getD 16
        hidden_dim := (nsHiddenDim p).getD 20
        num_steps := (nsNumSteps p).getD 1
        w_rec := (nsWRec p).getD 1
        w_kl := (nsWKl p).getD (7 / 1000)
        w_pred_prior := (nsWPredPrior p).getD (5 / 1000) }
  else none

/-- Run the script on a command line: CPython compiles the module first
and raises `SyntaxError` — before any statement, import or `main` runs —
when compilation fails; otherwise the module body parses the flags and
calls `main(args)`. -/
def scriptRun (argv : List String) (extN : ℕ) :
    Except PyErr (List Ev × Option PyErr) :=
  if moduleCompiles then
    match parseNamespace (pairFlags argv) with
    | none => .ok ([], none)
    | some a => .ok (Ev.parseArgs :: (mainBodyRun a extN).1, (mainBodyRun a extN).2)
  else .error .syntaxError

/-! ## Seeding and reproducibility (lines 52-65, 74, 151, 169)

The framework's pseudo-randomness is modelled as one explicit generator
state threaded through the run; `set_seed_device` (lines 52-65) overwrites
that state with the given seed and returns the device.  Every
framework-supplied operation that may consume randomness is a field of an
abstract `Framework`, a deterministic function of its inputs and of the
current state.  `main` resets the state to `args.seed` at lines 74, 151
and 169. -/

/-- `set_seed_device(seed)` (lines 52-65): seeds every framework
generator — the state becomes `seed` — and returns the device string. -/
def set_seed_device (cuda : Bool) (seed : Int) (_state : Int) :
    String × Int :=
  ((if cuda then "cuda:0" else "cpu"), seed)

/-- The framework calls of `main` that touch data, model or randomness,
as deterministic functions of their inputs and the generator state:
`M` is the model's type, `D` the loaded dataset's type. -/
structure Framework (M D : Type) where
  loadData : Args → Int → D × Int
  dataCount : D → ℕ
  buildModel : Args → Int → M × Int
  paramsNum : M → ℕ
  trainEpoch : M → D → Int → M × Int
  sampleBatch : M → ℕ → Int → List (List ℚ) × Int

/-- The generator state when the epoch loop starts: the state after the
`set_seed_device` of line 74 ran and the loader/model were built. -/
def stateAtTrainStart {M D : Type} (_fw : Framework M D) (cuda : Bool)
    (a : Args) (s0 : Int) : Int :=
  (set_seed_device cuda a.seed s0).2

/-- The trained model and the state after the epoch loop of lines
128-146: `epochs.toNat` folds of `trainEpoch` from the freshly built
model. -/
def afterTraining {M D : Type} (fw : Framework M D) (cuda : Bool)
    (a : Args) (s0 : Int) : D × M × Int :=
  let s1 := stateAtTrainStart fw cuda a s0
  let (data, s2) := fw.loadData a s1
  let (model0, s3) := fw.buildModel a s2
  let (modelT, s4) :=
    (List.range a.epochs.toNat).foldl
      (fun (p : M × Int) _ => fw.trainEpoch p.1 data p.2) (model0, s3)
  (data, modelT, s4)

/-- The generator state when the generation loop starts: the state set by
the `set_seed_device` of line 151. -/
def stateAtGenStart {M D : Type} (fw : Framework M D) (cuda : Bool)
    (a : Args) (s0 : Int) : Int :=
  (set_seed_device cuda a.seed (afterTraining fw cuda a s0).2.2).2

/-- The generated rows and the state after the generation loop of lines
153-158: one `sample_data` call per loader batch on the trained model. -/
def afterGeneration {M D : Type} (fw : Framework M D) (cuda : Bool)
    (a : Args) (s0 : Int) : List (List ℚ) × Int :=
  let (data, modelT, _) := afterTraining fw cuda a s0
  let sizes := batchSizes (fw.dataCount data) a.batch_size.toNat
  sizes.foldl
    (fun (p : List (List ℚ) × Int) n =>
      let (rows, s) := fw.sampleBatch modelT n p.2
      (p.1 ++ rows, s))
    ([], stateAtGenStart fw cuda a s0)

/-- The generator state when the evaluation loop starts: the state set by
the `set_seed_device` of line 169. -/
def stateAtEvalStart {M D : Type} (fw : Framework M D) (cuda : Bool)
    (a : Args) (s0 : Int) : Int :=
  (set_seed_device cuda a.seed (afterGeneration fw cuda a s0).2).2

/-- The observable result of `main`'s body in the state-threading model:
the strings printed (the parameter count of line 124; the metric prints
of lines 177-183 are never reached), and the uncaught exception the
evaluation block raises at line 175. -/
def mainRun {M D : Type} (fw : Framework M D) (cuda : Bool) (a : Args)
    (s0 : Int) : List String × Option PyErr :=
  let s1 := stateAtTrainStart fw cuda a s0
  let (data, s2) := fw.loadData a s1
  let (model0, _) := fw.buildModel a s2
  let prints :=
    ["number of model parameters: " ++ toString (fw.paramsNum model0)]
  let _ := (data, stateAtEvalStart fw cuda a s0)
  (prints, (evalPhase boundNamesAtEval).2)

/-! ## Phase classification (spec section 2)

The spec describes the script as `parse args → load data → build model →
loop epochs → evaluate`.  Each event of the embedded run is classified
into one of those five phases (or none, for seeding, sampling and
printing, which the spec's phase list does not name). -/

/-- The five phases the spec's overview names. -/
inductive Phase where
  | parse
  | load
  | build
  | train
  | eval
  deriving DecidableEq, Repr

/-- The phase an event belongs to. -/
def phaseOf : Ev → Option Phase
  | .parseArgs => some .parse
  | .dataLoad _ => some .load
  | .modelBuild => some .build
  | .trainLoopStart => some .train
  | .epochStart _ => some .train
  | .zeroGrad _ _ => some .train
  | .forward _ _ => some .train
  | .lossCall _ _ => some .train
  | .backward _ _ => some .train
  | .optStep _ _ => some .train
  | .metricDisc _ => some .eval
  | .metricPred _ => some .eval
  | .seedSet _ => none
  | .sample _ => none
  | .printOut _ => none

/-- The phase sequence of one run of lines 67-190, assuming the module
had compiled (see C1): the parse of lines 67-68 followed by the phases of
`main`'s body, with `a` the parsed namespace. -/
def runPhases (a : Args) (extN : ℕ) : List Phase :=
  (Ev.parseArgs :: (mainBodyRun a extN).1).filterMap phaseOf

/-- Event predicate: an `epochStart` log (line 129). -/
def isEpochStart : Ev → Bool
  | .epochStart _ => true
  | _ => false

/-- Event predicate: a `model(X)` forward call (line 137). -/
def isForward : Ev → Bool
  | .forward _ _ => true
  | _ => false

/-- Event predicate: a `model.loss(...)` call (line 139). -/
def isLossCall : Ev → Bool
  | .lossCall _ _ => true
  | _ => false

/-- Event predicate: an `optimizer.step()` call (line 141). -/
def isOptStep : Ev → Bool
  | .optStep _ _ => true
  | _ => false

/-- A concrete namespace for the C3 counterexample: the defaults with
every float hyperparameter set to `0` (as `--lr 0 --w_kl 0
--w_pred_prior 0` would), so the rendered name is kernel-computable. -/
def cexArgs : Args :=
  { defaultArgs with lr := 0, w_kl := 0, w_pred_prior := 0 }

/-! ## Helper lemmas -/

/-- Dropping while a predicate holds skips a prefix on which it is
everywhere true. -/
theorem dropWhile_append_all {α : Type} {p : α → Bool} {l₁ l₂ : List α}
    (h : ∀ x ∈ l₁, p x = true) :
    (l₁ ++ l₂).dropWhile p = l₂.dropWhile p := by
  induction l₁ with
  | nil => rfl
  | cons x xs ih =>
    simp only [List.cons_append, List.dropWhile_cons]
    rw [h x (List.mem_cons_self x xs)]
    simp only [if_true]
    exact ih (fun y hy => h y (List.mem_cons_of_mem x hy))

/-- `os.path.dirname` on a path of the form `A / B` with `B` slash-free
and `A` neither empty, all-slash, nor slash-terminated: the result is
`A`. -/
theorem dirname_concat (p : String) (A B : List Char) (c : Char) (R : List Char)
    (hp : p.data = A ++ '/' :: B)
    (hB : ∀ x ∈ B, x ≠ '/')
    (hA : A.reverse = c :: R) (hc : c ≠ '/')
    (d : Char) (hd : d ∈ A) (hdns : d ≠ '/') :
    dirname p = String.mk A := by
  have h1 : (A ++ '/' :: B).contains '/' = true := by simp
  have h2 : ∀ x ∈ B.reverse, (decide (x ≠ '/')) = true := by
    intro x hx
    simpa using hB x (List.mem_reverse.mp hx)
  have h3 : (A ++ '/' :: B).reverse.dropWhile (fun x => decide (x ≠ '/')) =
      '/' :: A.reverse := by
    have hrw : (A ++ '/' :: B).reverse = B.reverse ++ '/' :: A.reverse := by
      simp
    rw [hrw, dropWhile_append_all h2, List.dropWhile_cons]
    simp
  have h5 : (('/' :: A.reverse).reverse).all (fun x => decide (x = '/')) = false := by
    have hAfalse : A.all (fun x => decide (x = '/')) = false := by
      by_contra hcontra
      have hall : A.all (fun x => decide (x = '/')) = true := by
        revert hcontra
        cases A.all (fun x => decide (x = '/')) <;> simp
      have hde := (List.all_eq_true.mp hall) d hd
      simp at hde
      exact hdns hde
    simp [List.reverse_cons, List.all_append, hAfalse]
  have h6 : ('/' :: A.reverse).dropWhile (fun x => decide (x = '/')) = A.reverse := by
    rw [List.dropWhile_cons]
    simp only [decide_True, if_true]
    rw [hA, List.dropWhile_cons]
    simp [hc]
  unfold dirname
  rw [hp, h3, h1, h5, h6]
  simp

/-- The character list of `args.log_dir`, split at the separator that
precedes the run name. -/
theorem log_dir_data (fr : ℚ → String) (a : Args) :
    (log_dir fr a).data =
      ("./logs/".data ++ a.dataset.data) ++ '/' :: (nameOf fr a).data := by
  show ("./logs" ++ "/" ++ a.dataset ++ "/" ++ nameOf fr a).data = _
  simp [String.data_append]

/-! ## The claims -/

/-- C1: for every command line, running the script fails with
`SyntaxError` before `main` (or any statement) runs: the `visualization`
calls at lines 185-186 place a positional argument after keyword
arguments, so the module is not valid Python. -/
theorem c1_module_syntax_error (argv : List String) (extN : ℕ) :
    scriptRun argv extN = .error .syntaxError ∧
    callArgsValid visualizationCall185 = false ∧
    callArgsValid visualizationCall186 = false :=
  ⟨rfl, rfl, rfl⟩

/-- C2: the evaluation block of lines 167-183, run in the scope the file
actually builds, raises `NameError` on `predictive_score_metrics` in its
first iteration: one discriminative score is computed, no predictive
score, and none of the four mean/std prints is reached — contradicting
the claim that each score is computed 10 times and the statistics
printed. -/
theorem c2_evaluation_raises_nameerror :
    evalPhase boundNamesAtEval =
      ([Ev.metricDisc 0], some (.nameError "predictive_score_metrics")) :=
  rfl

/-- C3 counterexample: at a concrete namespace (defaults with the float
hyperparameters zeroed), the path passed to `tf.io.gfile.makedirs` at
line 118 is `./logs/sine`, not the derived log-directory path
`args.log_dir` — the claim that the created path is the log directory
itself is false. -/
theorem c3_makedirs_path_counterexample :
    makedirs_path pyFloatRepr cexArgs ≠ log_dir pyFloatRepr cexArgs ∧
    makedirs_path pyFloatRepr cexArgs = "./logs/sine" :=
  ⟨by decide, by decide⟩

/-- C3 amended: the path created at line 118 is
`os.path.dirname(args.log_dir)` — the parent `./logs/<dataset>` of the
derived log directory — and differs from the log directory itself
(whenever the dataset name is nonempty and slash-free and the rendered
run name is slash-free). -/
theorem c3_makedirs_creates_parent (fr : ℚ → String) (a : Args)
    (hnm : ∀ c ∈ (nameOf fr a).data, c ≠ '/')
    (hds : ∀ c ∈ a.dataset.data, c ≠ '/')
    (hne : a.dataset ≠ "") :
    makedirs_path fr a = "./logs/" ++ a.dataset ∧
    makedirs_path fr a ≠ log_dir fr a := by
  have hdne : a.dataset.data ≠ [] := by
    intro h
    exact hne (String.ext (h.trans rfl))
  have hrne : a.dataset.data.reverse ≠ [] := by simpa using hdne
  obtain ⟨c, R, hrev⟩ := List.exists_cons_of_ne_nil hrne
  have hcmem : c ∈ a.dataset.data := by
    have hcr : c ∈ a.dataset.data.reverse := by
      rw [hrev]; exact List.mem_cons_self c R
    exact List.mem_reverse.mp hcr
  have hc : c ≠ '/' := hds c hcmem
  have hA : ("./logs/".data ++ a.dataset.data).reverse =
      c :: (R ++ "./logs/".data.reverse) := by
    rw [List.reverse_append, hrev]
    simp
  have hdot : ('.' : Char) ∈ "./logs/".data ++ a.dataset.data :=
    List.mem_append_left _ (by decide)
  have hmain : dirname (log_dir fr a) =
      String.mk ("./logs/".data ++ a.dataset.data) :=
    dirname_concat (log_dir fr a) ("./logs/".data ++ a.dataset.data)
      (nameOf fr a).data c (R ++ "./logs/".data.reverse)
      (log_dir_data fr a) hnm hA hc '.' hdot (by decide)
  constructor
  · show dirname (log_dir fr a) = _
    rw [hmain]
    apply String.ext
    simp [String.data_append]
  · show dirname (log_dir fr a) ≠ _
    rw [hmain]
    intro heq
    have hdata := congrArg String.data heq
    rw [log_dir_data fr a] at hdata
    have hlen := congrArg List.length hdata
    simp at hlen

/-- C3 witness: the amended statement instantiated at the concrete
namespace of the counterexample. -/
theorem c3_makedirs_creates_parent_witness :
    makedirs_path pyFloatRepr cexArgs = "./logs/" ++ cexArgs.dataset ∧
    makedirs_path pyFloatRepr cexArgs ≠ log_dir pyFloatRepr cexArgs :=
  c3_makedirs_creates_parent pyFloatRepr cexArgs (by decide) (by decide)
    (by decide)

/-- C5: the parser has a flag for every hyperparameter the spec lists and,
whenever a flag is omitted from the command line, the namespace field
holds that flag's `define_args` default (600 epochs, lr 7e-4, seed 10,
dataset 'sine', batch size 64, sequence length 24, 3 layers, z dim 16,
hidden dim 20, loss weights 1.0 / 0.007 / 0.005); with nothing provided,
the whole parsed namespace is the default one. -/
theorem c5_cli_defaults (provided : List (String × String))
    (h1 : provided.lookup "--epochs" = none)
    (h2 : provided.lookup "--lr" = none)
    (h3 : provided.lookup "--seed" = none)
    (h4 : provided.lookup "--dataset" = none)
    (h5 : provided.lookup "--batch_size" = none)
    (h6 : provided.lookup "--seq_len" = none)
    (h7 : provided.lookup "--num_layers" = none)
    (h8 : provided.lookup "--z_dim" = none)
    (h9 : provided.lookup "--hidden_dim" = none)
    (h10 : provided.lookup "--w_rec" = none)
    (h11 : provided.lookup "--w_kl" = none)
    (h12 : provided.lookup "--w_pred_prior" = none) :
    (epochsSpec ∈ parserSpecs ∧ parsedValue epochsSpec provided = some (.int 600)) ∧
    (lrSpec ∈ parserSpecs ∧ parsedValue lrSpec provided = some (.float (7 / 10000))) ∧
    (seedSpec ∈ parserSpecs ∧ parsedValue seedSpec provided = some (.int 10)) ∧
    (datasetSpec ∈ parserSpecs ∧ parsedValue datasetSpec provided = some (.str "sine")) ∧
    (batchSizeSpec ∈ parserSpecs ∧ parsedValue batchSizeSpec provided = some (.int 64)) ∧
    (seqLenSpec ∈ parserSpecs ∧ parsedValue seqLenSpec provided = some (.int 24)) ∧
    (numLayersSpec ∈ parserSpecs ∧ parsedValue numLayersSpec provided = some (.int 3)) ∧
    (zDimSpec ∈ parserSpecs ∧ parsedValue zDimSpec provided = some (.int 16)) ∧
    (hiddenDimSpec ∈ parserSpecs ∧ parsedValue hiddenDimSpec provided = some (.int 20)) ∧
    (wRecSpec ∈ parserSpecs ∧ parsedValue wRecSpec provided = some (.float 1)) ∧
    (wKlSpec ∈ parserSpecs ∧ parsedValue wKlSpec provided = some (.float (7 / 1000))) ∧
    (wPredPriorSpec ∈ parserSpecs ∧ parsedValue wPredPriorSpec provided = some (.float (5 / 1000))) ∧
    parseNamespace [] = some defaultArgs := by
  refine ⟨⟨by simp [parserSpecs], ?_⟩, ⟨by simp [parserSpecs], ?_⟩,
    ⟨by simp [parserSpecs], ?_⟩, ⟨by simp [parserSpecs], ?_⟩,
    ⟨by simp [parserSpecs], ?_⟩, ⟨by simp [parserSpecs], ?_⟩,
    ⟨by simp [parserSpecs], ?_⟩, ⟨by simp [parserSpecs], ?_⟩,
    ⟨by simp [parserSpecs], ?_⟩, ⟨by simp [parserSpecs], ?_⟩,
    ⟨by simp [parserSpecs], ?_⟩, ⟨by simp [parserSpecs], ?_⟩, rfl⟩
  · simp [parsedValue, epochsSpec, h1]
  · simp [parsedValue, lrSpec, h2]
  · simp [parsedValue, seedSpec, h3]
  · simp [parsedValue, datasetSpec, h4]
  · simp [parsedValue, batchSizeSpec, h5]
  · simp [parsedValue, seqLenSpec, h6]
  · simp [parsedValue, numLayersSpec, h7]
  · simp [parsedValue, zDimSpec, h8]
  · simp [parsedValue, hiddenDimSpec, h9]
  · simp [parsedValue, wRecSpec, h10]
  · simp [parsedValue, wKlSpec, h11]
  · simp [parsedValue, wPredPriorSpec, h12]

/-- C5 witness: the empty command line. -/
theorem c5_cli_defaults_witness :
    parsedValue epochsSpec [] = some (.int 600) ∧
    parseNamespace [] = some defaultArgs := by
  have h := c5_cli_defaults [] rfl rfl rfl rfl rfl rfl rfl rfl rfl rfl rfl rfl
  exact ⟨h.1.2, h.2.2.2.2.2.2.2.2.2.2.2.2⟩

/-- C9: for the `type=bool` flags `--batch_norm` and `--pinv_solver`,
every non-empty command-line string — including `"False"` and `"0"` —
parses to `True`, and only the empty string parses to `False`; passing
`--batch_norm False` does not disable batch norm. -/
theorem c9_type_bool_flags (s : String) :
    (parsedValue batchNormSpec [("--batch_norm", s)] = some (.bool true) ↔ s ≠ "") ∧
    (parsedValue batchNormSpec [("--batch_norm", s)] = some (.bool false) ↔ s = "") ∧
    (parsedValue pinvSolverSpec [("--pinv_solver", s)] = some (.bool true) ↔ s ≠ "") ∧
    parsedValue batchNormSpec [("--batch_norm", "False")] = some (.bool true) ∧
    parsedValue batchNormSpec [("--batch_norm", "0")] = some (.bool true) ∧
    parsedValue batchNormSpec [("--batch_norm", "")] = some (.bool false) := by
  refine ⟨?_, ?_, ?_, by decide, by decide, by decide⟩
  · simp [parsedValue, batchNormSpec, List.lookup, convert, pyBool]
  · simp [parsedValue, batchNormSpec, List.lookup, convert, pyBool]
  · simp [parsedValue, pinvSolverSpec, List.lookup, convert, pyBool]

/-- Counting events in the epoch loop: each epoch contributes its
epoch-start log plus one fixed contribution per batch block. -/
theorem trainTrace_countP (p : Ev → Bool) (j k : ℕ)
    (hstart : ∀ n, (if p (.epochStart n) then 1 else 0) = j)
    (hblock : ∀ e b, (batchBlock e b).countP p = k)
    (E : Int) (sizes : List ℕ) :
    (trainTrace E sizes).countP p = E.toNat * (j + sizes.length * k) := by
  have hep : ∀ e, (epochTrace e sizes).countP p = j + sizes.length * k := by
    intro e
    unfold epochTrace
    rw [List.countP_cons, List.countP_flatMap]
    have hmap : List.map (List.countP p ∘ fun i => batchBlock e (i + 1))
        (List.range sizes.length) = List.map (fun _ => k) (List.range sizes.length) := by
      apply List.map_congr_left
      intro i _
      exact hblock e (i + 1)
    rw [hmap, List.map_const', List.sum_replicate, smul_eq_mul, hstart,
      List.length_range]
    omega
  unfold trainTrace
  rw [List.countP_flatMap]
  have hmap : List.map (List.countP p ∘ fun e => epochTrace e sizes)
      (List.range E.toNat) = List.map (fun _ => j + sizes.length * k) (List.range E.toNat) := by
    apply List.map_congr_left
    intro e _
    exact hep e
  rw [hmap, List.map_const', List.sum_replicate, smul_eq_mul, List.length_range]

/-- C6: `for epoch in range(0, args.epochs)` runs exactly
`max(epochs, 0)` epochs; per epoch the model's forward and loss methods
are each called once per loader batch, the optimizer steps once per loss
(the batch block is forward-loss-backward-step, contiguously in the
trace), and for `epochs ≤ 0` the loop body never runs. -/
theorem c6_epoch_loop (E : Int) (sizes : List ℕ) :
    ((trainTrace E sizes).countP isEpochStart = E.toNat) ∧
    ((trainTrace E sizes).countP isForward = E.toNat * sizes.length) ∧
    ((trainTrace E sizes).countP isLossCall = E.toNat * sizes.length) ∧
    ((trainTrace E sizes).countP isOptStep = E.toNat * sizes.length) ∧
    (∀ e, e < E.toNat → ∀ b, b < sizes.length →
      batchBlock e (b + 1) <:+: trainTrace E sizes) ∧
    (E ≤ 0 → trainTrace E sizes = []) := by
  refine ⟨?_, ?_, ?_, ?_, ?_, ?_⟩
  · have h := trainTrace_countP isEpochStart 1 0 (fun n => by simp [isEpochStart])
      (fun e b => by simp [batchBlock, isEpochStart]) E sizes
    simpa using h
  · have h := trainTrace_countP isForward 0 1 (fun n => by simp [isForward])
      (fun e b => by simp [batchBlock, isForward]) E sizes
    simpa using h
  · have h := trainTrace_countP isLossCall 0 1 (fun n => by simp [isLossCall])
      (fun e b => by simp [batchBlock, isLossCall]) E sizes
    simpa using h
  · have h := trainTrace_countP isOptStep 0 1 (fun n => by simp [isOptStep])
      (fun e b => by simp [batchBlock, isOptStep]) E sizes
    simpa using h
  · intro e he b hb
    have hmem : batchBlock e (b + 1) ∈
        List.map (fun i => batchBlock e (i + 1)) (List.range sizes.length) :=
      List.mem_map_of_mem _ (List.mem_range.mpr hb)
    have h1 : batchBlock e (b + 1) <:+:
        (List.range sizes.length).flatMap (fun i => batchBlock e (i + 1)) := by
      rw [List.flatMap_def]
      exact List.infix_of_mem_flatten hmem
    have h1' : batchBlock e (b + 1) <:+: epochTrace e sizes := by
      unfold epochTrace
      obtain ⟨u, v, huv⟩ := h1
      exact ⟨Ev.epochStart (e + 1) :: u, v, by rw [← huv]; rfl⟩
    have h2 : epochTrace e sizes <:+: trainTrace E sizes := by
      unfold trainTrace
      rw [List.flatMap_def]
      exact List.infix_of_mem_flatten
        (List.mem_map_of_mem _ (List.mem_range.mpr he))
    exact h1'.trans h2
  · intro hE
    unfold trainTrace
    rw [Int.toNat_of_nonpos hE]
    rfl

/-- C6 witness: two epochs over a two-batch loader. -/
theorem c6_epoch_loop_witness :
    (trainTrace 2 [3, 2]).countP isForward = 4 ∧
    batchBlock 0 2 <:+: trainTrace 2 [3, 2] ∧
    trainTrace (-1) [3, 2] = [] := by
  have h := c6_epoch_loop 2 [3, 2]
  have h' := c6_epoch_loop (-1) [3, 2]
  exact ⟨by simpa using h.2.1, h.2.2.2.2.1 0 (by decide) 1 (by decide),
    h'.2.2.2.2.2 (by decide)⟩

/-- A loader with positive batch size partitions the dataset: the batch
sizes sum to the sample count. -/
theorem batchSizes_sum (bs : ℕ) (h : 0 < bs) : ∀ N, (batchSizes N bs).sum = N := by
  intro N
  induction N using Nat.strong_induction_on with
  | _ N ih =>
    rw [batchSizes]
    split
    · simp only [List.sum_nil]
      omega
    · split
      · simp
      · rename_i h1 h2
        simp only [List.sum_cons]
        rw [ih (N - bs) (by omega)]
        omega

/-- C10: when the model's sampler returns exactly the requested number of
series per call, stacking the per-batch samples of lines 153-158 yields
as many generated series as the dataset holds; the restacked original
data of lines 162-165 has that same count. -/
theorem c10_generated_count (sample : ℕ → List (List ℚ))
    (hs : ∀ n, (sample n).length = n) (N bs : ℕ) (hbs : 0 < bs) :
    (generatedStack sample (batchSizes N bs)).length = N ∧
    oriStackLen (batchSizes N bs) = N := by
  have hsum := batchSizes_sum bs hbs N
  constructor
  · unfold generatedStack
    rw [List.length_flatten, List.map_map]
    have hmp : List.map (List.length ∘ fun n => sample n) (batchSizes N bs) =
        List.map id (batchSizes N bs) :=
      List.map_congr_left (fun n _ => hs n)
    rw [hmp, List.map_id]
    exact hsum
  · exact hsum

/-- C10 witness: ten samples in batches of three. -/
theorem c10_generated_count_witness :
    (generatedStack (fun n => List.replicate n []) (batchSizes 10 3)).length = 10 ∧
    oriStackLen (batchSizes 10 3) = 10 :=
  c10_generated_count (fun n => List.replicate n []) (fun n => by simp) 10 3
    (by decide)

/-- C7: the file installs no exception handler — no `try`/`except`
appears anywhere in its statement tree — and, in the embedded executor,
the first exception any step raises becomes the run's uncaught result, no
matter what follows. -/
theorem c7_no_try_except :
    containsTryList scriptStmts = false ∧
    (∀ pre t e post, (seqRun pre).2 = none →
      (seqRun (pre ++ (t, some e) :: post)).2 = some e) := by
  constructor
  · decide
  · intro pre t e post hpre
    induction pre with
    | nil => rfl
    | cons s rest ih =>
      obtain ⟨ts, r⟩ := s
      cases r with
      | some err => simp [seqRun] at hpre
      | none =>
        have hrest : (seqRun rest).2 = none := by simpa [seqRun] using hpre
        simpa [seqRun] using ih hrest

/-- C7 witness: a failing step after one successful step propagates. -/
theorem c7_no_try_except_witness :
    (seqRun [([Ev.modelBuild], none), ([], some .syntaxError)]).2 =
      some .syntaxError :=
  c7_no_try_except.2 [([Ev.modelBuild], none)] [] .syntaxError [] rfl

/-- C8: two runs with the same parsed arguments behave identically — the
observable result of `main` does not depend on the initial generator
state, because `set_seed_device(args.seed)` overwrites that state at line
74 (before training), line 151 (before generation) and line 169 (before
evaluation), each time with the same seed. -/
theorem c8_seed_determinism {M D : Type} (fw : Framework M D) (cuda : Bool)
    (a : Args) (s0 s1 : Int) :
    mainRun fw cuda a s0 = mainRun fw cuda a s1 ∧
    stateAtTrainStart fw cuda a s0 = a.seed ∧
    stateAtGenStart fw cuda a s0 = a.seed ∧
    stateAtEvalStart fw cuda a s0 = a.seed :=
  ⟨rfl, rfl, rfl, rfl⟩

/-- The run of `main`'s body, computed: the pre-loop events, the epoch
loop, the reseed, the generation samples, the reseed, and the single
discriminative call before the `NameError` of line 175. -/
theorem mainBodyRun_eq (a : Args) (extN : ℕ) : mainBodyRun a extN =
    ([Ev.seedSet a.seed, Ev.dataLoad a.dataset, Ev.modelBuild,
      Ev.printOut "number of model parameters", Ev.trainLoopStart] ++
     (trainTrace a.epochs (sizesOf a extN) ++
      ([Ev.seedSet a.seed] ++ (genTrace (sizesOf a extN) ++
       ([Ev.seedSet a.seed] ++ [Ev.metricDisc 0])))),
     some (.nameError "predictive_score_metrics")) := rfl

/-- A list of events all classified into one phase (or unclassified)
filters to a replicate of that phase. -/
theorem filterMap_phase_const {l : List Ev} {p : Phase}
    (h : ∀ e ∈ l, phaseOf e = some p ∨ phaseOf e = none) :
    ∃ k, l.filterMap phaseOf = List.replicate k p := by
  induction l with
  | nil => exact ⟨0, rfl⟩
  | cons x xs ih =>
    obtain ⟨k, hk⟩ := ih (fun e he => h e (List.mem_cons_of_mem x he))
    rcases h x (List.mem_cons_self x xs) with hx | hx
    · exact ⟨k + 1, by simp [List.filterMap_cons, hx, hk, List.replicate_succ]⟩
    · exact ⟨k, by simp [List.filterMap_cons, hx, hk]⟩

/-- Every event the epoch loop emits belongs to the training phase. -/
theorem trainTrace_mem_phase (E : Int) (sizes : List ℕ) :
    ∀ e ∈ trainTrace E sizes, phaseOf e = some .train ∨ phaseOf e = none := by
  intro ev hev
  unfold trainTrace at hev
  rw [List.mem_flatMap] at hev
  obtain ⟨i, _, hi⟩ := hev
  unfold epochTrace at hi
  rw [List.mem_cons] at hi
  rcases hi with h | h
  · subst h; left; rfl
  · rw [List.mem_flatMap] at h
    obtain ⟨b, _, hb⟩ := h
    unfold batchBlock at hb
    simp only [List.mem_cons, List.not_mem_nil, or_false] at hb
    rcases hb with h | h | h | h | h <;> (subst h; left; rfl)

/-- Generation emits no phase-classified event (sampling sits between
the spec's loop and evaluate phases). -/
theorem genTrace_phase (sizes : List ℕ) : (genTrace sizes).filterMap phaseOf = [] := by
  unfold genTrace
  induction sizes with
  | nil => rfl
  | cons x xs ih => simp [List.filterMap_cons, phaseOf, ih]

/-- C4: one run of lines 67-190 passes through the spec's phases in
order — parse, load, build, a nonempty block of training-loop events,
then a nonempty block of evaluation events — with no event of an earlier
phase after one of a later phase. -/
theorem c4_phase_order (a : Args) (extN : ℕ) :
    ∃ k m, runPhases a extN =
      [Phase.parse, Phase.load, Phase.build] ++
      List.replicate (k + 1) Phase.train ++ List.replicate (m + 1) Phase.eval := by
  obtain ⟨k, hk⟩ := filterMap_phase_const
    (trainTrace_mem_phase a.epochs (sizesOf a extN))
  refine ⟨k, 0, ?_⟩
  unfold runPhases
  rw [mainBodyRun_eq]
  simp [List.filterMap_cons, List.filterMap_append, phaseOf, hk,
    genTrace_phase, List.replicate_succ]

end KoVAE
